import Mathlib

/-!
Verification of the detection-service core of the
Real-time-WebRTC-VLM-Multi-Object-Detection repository.

The embedding translates, from `src/detection-service`:
  * `yolo_detector.py` — `YOLODetector.detect_objects`: the post-processing
    of raw model boxes into the normalized `DetectionResult` dictionary.
    The neural network itself is external; its output (the list of raw
    boxes with confidence and class) and the measured wall-clock
    `processing_time` are inputs of the embedded function.
  * `detection_server.py` — the socket-event handlers
    (`join_detection_session`, `process_frame`, `get_session_stats`,
    `disconnect`) and the background `detection_worker` loop, over a
    server state consisting of the `active_sessions` registry and the
    bounded `detection_queue`.  Emitted socket messages are modelled as an
    explicit list of `Emit` values.  Time values are parameters.
-/

namespace DetectionService

/-! ## Data model: detections and results (`yolo_detector.py`) -/

/-- Normalized bounding box, fields exactly as built in
`detect_objects` (`yolo_detector.py` lines 124-131). -/
structure BBox where
  x1 : ℚ
  y1 : ℚ
  x2 : ℚ
  y2 : ℚ
  width : ℚ
  height : ℚ
  deriving Repr, DecidableEq

/-- One detection entry of the `detections` list. -/
structure Detection where
  class_id : ℕ
  class_name : String
  confidence : ℚ
  bbox : BBox
  deriving Repr, DecidableEq

/-- `image_size` entry of a result (`processed_image.size`). -/
structure ImageSize where
  width : ℕ
  height : ℕ
  deriving Repr, DecidableEq

/-- The dictionary returned by `YOLODetector.detect_objects`
(`yolo_detector.py` lines 138-147). -/
structure DetResult where
  detections : List Detection
  processing_time : ℚ
  fps : ℚ
  image_size : ImageSize
  detection_count : ℕ
  deriving Repr, DecidableEq

/-- A raw box produced by the external model: `boxes.xyxy[i]` together with
`boxes.conf[i]` and `boxes.cls[i]` (`yolo_detector.py` lines 104-108).
Coordinates are in pixels of the processed image; the code applies no
clamping to them. -/
structure ModelBox where
  x1 : ℚ
  y1 : ℚ
  x2 : ℚ
  y2 : ℚ
  conf : ℚ
  cls : ℕ
  deriving Repr, DecidableEq

/-- The COCO class-name lookup of `yolo_detector.py` lines 120-122:
`class_names[cls]` when in range, otherwise the string `class_<cls>`. -/
def className (class_names : List String) (cls : ℕ) : String :=
  if h : cls < class_names.length then class_names.get ⟨cls, h⟩
  else "class_" ++ toString cls

/-- Translation of the per-box body of the loop in `detect_objects`
(`yolo_detector.py` lines 104-133): normalize pixel coordinates by the
processed image dimensions and record width/height as differences. -/
def mkDetection (class_names : List String) (imgW imgH : ℕ) (b : ModelBox) :
    Detection :=
  let x1n : ℚ := b.x1 / imgW
  let y1n : ℚ := b.y1 / imgH
  let x2n : ℚ := b.x2 / imgW
  let y2n : ℚ := b.y2 / imgH
  { class_id := b.cls
    class_name := className class_names b.cls
    confidence := b.conf
    bbox :=
      { x1 := x1n, y1 := y1n, x2 := x2n, y2 := y2n
        width := x2n - x1n, height := y2n - y1n } }

/-- Translation of `YOLODetector.detect_objects` (`yolo_detector.py`
lines 73-147) after decoding and preprocessing.  `boxes` is the raw model
output (the empty list covers `results[0].boxes is None` and no results);
`imgW`, `imgH` are `processed_image.size`; `processing_time` is the
measured wall-clock duration.  `fps = 1.0 / processing_time if
processing_time > 0 else 0` (line 136); `detection_count =
len(detections)` (line 146). -/
def detect_objects (class_names : List String) (imgW imgH : ℕ)
    (boxes : List ModelBox) (processing_time : ℚ) : DetResult :=
  let detections := boxes.map (mkDetection class_names imgW imgH)
  { detections := detections
    processing_time := processing_time
    fps := if processing_time > 0 then 1 / processing_time else 0
    image_size := { width := imgW, height := imgH }
    detection_count := detections.length }

/-! ## Server state (`detection_server.py`) -/

/-- One entry of the `active_sessions` dict, built at
`join_detection_session` (`detection_server.py` lines 130-135). -/
structure SessionInfo where
  sid : ℕ
  joined_at : ℕ
  frame_count : ℕ
  last_detection : Option ℕ
  deriving Repr, DecidableEq

/-- The `active_sessions` dict: association list from `session_id`
strings to `SessionInfo`, in insertion order (Python dict order). -/
abbrev Registry := List (String × SessionInfo)

/-- `session_id in active_sessions` membership lookup: first entry with
the given key. -/
def lookupSession : Registry → String → Option SessionInfo
  | [], _ => none
  | (k, v) :: rest, id => if k = id then some v else lookupSession rest id

/-- Dict assignment `active_sessions[session_id] = info`: replace the
entry in place when the key is present, else append. -/
def setSession (reg : Registry) (id : String) (info : SessionInfo) :
    Registry :=
  match reg with
  | [] => [(id, info)]
  | (k, v) :: rest =>
      if k = id then (k, info) :: rest
      else (k, v) :: setSession rest id info

/-- `active_sessions[session_id]['frame_count'] += 1`
(`detection_server.py` line 173): update the entry with the given key
in place. -/
def bumpFrameCount : Registry → String → Registry
  | [], _ => []
  | (k, v) :: rest, id =>
      if k = id then
        (k, { v with frame_count := v.frame_count + 1 }) :: rest
      else (k, v) :: bumpFrameCount rest id

/-- The `disconnect` handler's registry effect (`detection_server.py`
lines 110-119): linear scan for the first session owned by transport
`sid`, delete it if found. -/
def removeBySid : Registry → ℕ → Registry
  | [], _ => []
  | (k, v) :: rest, sid =>
      if v.sid = sid then rest else (k, v) :: removeBySid rest sid

/-- One pending tuple of the `detection_queue`:
`(session_id, image_data, timestamp)` (`detection_server.py` line 177). -/
structure Job where
  session_id : String
  image : String
  timestamp : ℕ
  deriving Repr, DecidableEq

/-- `detection_queue = queue.Queue(maxsize=10)` (`detection_server.py`
line 31). -/
def QUEUE_MAXSIZE : ℕ := 10

/-- The process-wide mutable state: `active_sessions` and the FIFO
`detection_queue` (head = next to dequeue). -/
structure ServerState where
  sessions : Registry
  queue : List Job
  deriving Repr, DecidableEq

/-- State at process start: no sessions, empty queue. -/
def initState : ServerState := { sessions := [], queue := [] }

/-- The room a `sio.emit` addresses: either a transport connection id
(`room=sid`) or a session room (`room=session_id`). -/
inductive Room where
  | conn (sid : ℕ)
  | session (id : String)
  deriving Repr, DecidableEq

/-- Payload of a `detection_results` emit.  The worker's success payload
(`detection_server.py` lines 77-87) has `error = none` and carries
`image_size`, `detection_count` and `processing_timestamp`; the
queue-full direct reply (lines 180-187) has an `error` string and omits
those three keys. -/
structure ResultsPayload where
  session_id : String
  timestamp : ℕ
  error : Option String
  detections : List Detection
  processing_time : ℚ
  fps : ℚ
  image_size : Option ImageSize
  detection_count : Option ℕ
  processing_timestamp : Option ℕ
  deriving Repr, DecidableEq

/-- Payload of a `session_stats` emit (`detection_server.py`
lines 200-207). -/
structure StatsPayload where
  session_id : String
  uptime : ℤ
  frame_count : ℕ
  last_detection : Option ℕ
  queue_size : ℕ
  active_sessions : ℕ
  deriving Repr, DecidableEq

/-- A socket message emitted by the server. -/
inductive Emit where
  | errorMsg (room : ℕ) (message : String)
  | joinedSession (room : ℕ) (session_id : String)
  | detectionResults (room : Room) (payload : ResultsPayload)
  | sessionStats (room : ℕ) (payload : StatsPayload)
  deriving Repr, DecidableEq

/-- Python truthiness test `not x` used on `data.get(...)` values:
true for a missing key (`None`) and for the empty string. -/
def isFalsy : Option String → Bool
  | none => true
  | some s => s == ""

/-! ## Socket-event handlers (`detection_server.py`) -/

/-- `join_detection_session` (`detection_server.py` lines 121-149):
reject a falsy `session_id`, otherwise overwrite the registry entry with
a fresh record (`frame_count = 0`, `last_detection = None`,
`joined_at = now`, owning transport `sid`) and acknowledge. -/
def join_detection_session (sid : ℕ) (session_id : Option String)
    (now : ℕ) (st : ServerState) : ServerState × List Emit :=
  if isFalsy session_id then
    (st, [Emit.errorMsg sid "Session ID required"])
  else
    let id := session_id.getD ""
    ({ st with
        sessions := setSession st.sessions id
          { sid := sid, joined_at := now, frame_count := 0
            last_detection := none } },
     [Emit.joinedSession sid id])

/-- `disconnect` (`detection_server.py` lines 104-119): remove the first
session owned by the disconnecting transport, if any. -/
def disconnect (sid : ℕ) (st : ServerState) : ServerState × List Emit :=
  ({ st with sessions := removeBySid st.sessions sid }, [])

/-- The queue-full direct reply dict of `process_frame`
(`detection_server.py` lines 180-187). -/
def queueFullPayload (session_id : String) (timestamp : ℕ) :
    ResultsPayload :=
  { session_id := session_id
    timestamp := timestamp
    error := some "Detection queue full, frame skipped"
    detections := []
    processing_time := 0
    fps := 0
    image_size := none
    detection_count := none
    processing_timestamp := none }

/-- `process_frame` (`detection_server.py` lines 151-187).  Checks the
detector handle, validates `session_id`/`image` presence, checks session
membership, increments the session's `frame_count`, then attempts a
non-blocking enqueue; a full queue (`put_nowait` raising `queue.Full`)
produces the degraded `detection_results` reply sent directly to the
calling transport. -/
def process_frame (detectorReady : Bool) (sid : ℕ)
    (session_id image : Option String) (timestamp : ℕ)
    (st : ServerState) : ServerState × List Emit :=
  if !detectorReady then
    (st, [Emit.errorMsg sid "Detector not initialized"])
  else if isFalsy session_id || isFalsy image then
    (st, [Emit.errorMsg sid "Session ID and image data required"])
  else
    let id := session_id.getD ""
    match lookupSession st.sessions id with
    | none => (st, [Emit.errorMsg sid "Session not found"])
    | some _ =>
        let sessions' := bumpFrameCount st.sessions id
        if st.queue.length < QUEUE_MAXSIZE then
          ({ sessions := sessions'
             queue := st.queue ++ [{ session_id := id
                                     image := image.getD ""
                                     timestamp := timestamp }] },
           [])
        else
          ({ sessions := sessions', queue := st.queue },
           [Emit.detectionResults (Room.conn sid)
              (queueFullPayload id timestamp)])

/-- `get_session_stats` (`detection_server.py` lines 189-209): snapshot
read of the session's counters plus live queue size and session count. -/
def get_session_stats (sid : ℕ) (session_id : Option String) (now : ℕ)
    (st : ServerState) : ServerState × List Emit :=
  let id := session_id.getD ""
  match lookupSession st.sessions id with
  | none => (st, [Emit.errorMsg sid "Session not found"])
  | some info =>
      (st, [Emit.sessionStats sid
        { session_id := id
          uptime := (now : ℤ) - (info.joined_at : ℤ)
          frame_count := info.frame_count
          last_detection := info.last_detection
          queue_size := st.queue.length
          active_sessions := st.sessions.length }])

/-! ## Detection worker (`detection_server.py` lines 64-96) -/

/-- The success payload the worker publishes: the `detect_objects`
result enriched with `session_id`, `timestamp` and
`processing_timestamp` (`detection_server.py` lines 77-82). -/
def workerPayload (res : DetResult) (session_id : String)
    (timestamp now : ℕ) : ResultsPayload :=
  { session_id := session_id
    timestamp := timestamp
    error := none
    detections := res.detections
    processing_time := res.processing_time
    fps := res.fps
    image_size := some res.image_size
    detection_count := some res.detection_count
    processing_timestamp := some now }

/-- One iteration of the `detection_worker` loop
(`detection_server.py` lines 68-96) on a dequeued job.  `detect` is the
call `detector.detect_objects(image_data)`: external decoding plus
inference, which may raise (`Except.error`).  An empty queue is the
`queue.Empty` timeout (`continue`).  A `None` detector drops the job
(`continue` after the `get`).  A raised exception is caught by the
`except Exception` arm, which only logs — nothing is emitted.  On
success the result is published to the session's room only if the
session is still registered at delivery time. -/
def detection_worker_step (detectorReady : Bool)
    (detect : String → Except String DetResult) (now : ℕ)
    (st : ServerState) : ServerState × List Emit :=
  match st.queue with
  | [] => (st, [])
  | job :: rest =>
      if !detectorReady then ({ st with queue := rest }, [])
      else
        match detect job.image with
        | Except.error _ => ({ st with queue := rest }, [])
        | Except.ok res =>
            if (lookupSession st.sessions job.session_id).isSome then
              ({ st with queue := rest },
               [Emit.detectionResults (Room.session job.session_id)
                  (workerPayload res job.session_id job.timestamp now)])
            else ({ st with queue := rest }, [])

/-- The sequential worker draining a list of queued jobs in FIFO order
against a fixed registry, concatenating the published emits.  This is
the `detection_worker` loop run to completion with no concurrent
transport events. -/
def detection_worker_run (detect : String → Except String DetResult)
    (now : ℕ) (reg : Registry) : List Job → List Emit
  | [] => []
  | job :: rest =>
      (detection_worker_step true detect now
        { sessions := reg, queue := job :: rest }).2
      ++ detection_worker_run detect now reg rest

/-! ## Event traces -/

/-- An external event hitting the server.  Frame and worker events carry
the data the corresponding handler reads from its environment (detector
handle state, the external detect call, wall-clock time). -/
inductive Event where
  | join (sid : ℕ) (session_id : Option String) (now : ℕ)
  | frame (detectorReady : Bool) (sid : ℕ)
      (session_id image : Option String) (timestamp : ℕ)
  | workerStep (detectorReady : Bool)
      (detect : String → Except String DetResult) (now : ℕ)
  | disconnectEv (sid : ℕ)
  | stats (sid : ℕ) (session_id : Option String) (now : ℕ)

/-- Dispatch one event to its handler. -/
def stepEvent (st : ServerState) : Event → ServerState × List Emit
  | Event.join sid session_id now =>
      join_detection_session sid session_id now st
  | Event.frame ready sid session_id image timestamp =>
      process_frame ready sid session_id image timestamp st
  | Event.workerStep ready detect now =>
      detection_worker_step ready detect now st
  | Event.disconnectEv sid => disconnect sid st
  | Event.stats sid session_id now => get_session_stats sid session_id now st

/-- Run a trace of events from a state, accumulating all emits. -/
def runEvents (st : ServerState) : List Event → ServerState × List Emit
  | [] => (st, [])
  | e :: rest =>
      let r := stepEvent st e
      let r' := runEvents r.1 rest
      (r'.1, r.2 ++ r'.2)

/-- The `detection_results` payloads an emit list delivers to session
room `s`, in order. -/
def emitsForSession (s : String) (es : List Emit) : List ResultsPayload :=
  es.filterMap (fun e =>
    match e with
    | Emit.detectionResults (Room.session id) p =>
        if id == s then some p else none
    | _ => none)

/-- The reply (if any) the worker produces for one job against a fixed
registry: `none` when detection raises or the session is gone. -/
def resultFor (detect : String → Except String DetResult) (now : ℕ)
    (reg : Registry) (job : Job) : Option ResultsPayload :=
  match detect job.image with
  | Except.error _ => none
  | Except.ok res =>
      if (lookupSession reg job.session_id).isSome then
        some (workerPayload res job.session_id job.timestamp now)
      else none

/-! ## Registry lemmas -/

lemma lookup_setSession_self (reg : Registry) (id : String)
    (v : SessionInfo) :
    lookupSession (setSession reg id v) id = some v := by
  induction reg with
  | nil => simp [setSession, lookupSession]
  | cons hd tl ih =>
      obtain ⟨k, w⟩ := hd
      by_cases hk : k = id
      · subst hk
        simp [setSession, lookupSession]
      · simp [setSession, lookupSession, hk, ih]

lemma countP_setSession (reg : Registry) (id : String) (v : SessionInfo)
    (h : reg.countP (fun p => p.1 == id) ≤ 1) :
    (setSession reg id v).countP (fun p => p.1 == id) = 1 := by
  induction reg with
  | nil => simp [setSession]
  | cons hd tl ih =>
      obtain ⟨k, w⟩ := hd
      by_cases hk : k = id
      · subst hk
        simp [setSession, List.countP_cons] at h ⊢
        exact h
      · simp [setSession, hk, List.countP_cons] at h ⊢
        exact ih h

lemma lookup_bumpFrameCount_self (reg : Registry) (id : String) :
    lookupSession (bumpFrameCount reg id) id
      = (lookupSession reg id).map
          (fun i => { i with frame_count := i.frame_count + 1 }) := by
  induction reg with
  | nil => simp [bumpFrameCount, lookupSession]
  | cons hd tl ih =>
      obtain ⟨k, w⟩ := hd
      by_cases hk : k = id
      · subst hk
        simp [bumpFrameCount, lookupSession]
      · simp [bumpFrameCount, lookupSession, hk, ih]

/-- Reduction of `process_frame` on a well-formed frame for a live
session: the frame count bump always happens, then either the enqueue or
the queue-full direct reply. -/
lemma process_frame_accepted_eq (sid : ℕ) (id img : String) (ts : ℕ)
    (st : ServerState) (info : SessionInfo)
    (h1 : (id == "") = false) (h2 : (img == "") = false)
    (hmem : lookupSession st.sessions id = some info) :
    process_frame true sid (some id) (some img) ts st
      = if st.queue.length < QUEUE_MAXSIZE then
          ({ sessions := bumpFrameCount st.sessions id,
             queue := st.queue ++ [{ session_id := id, image := img
                                     timestamp := ts }] }, [])
        else
          ({ sessions := bumpFrameCount st.sessions id, queue := st.queue },
           [Emit.detectionResults (Room.conn sid)
              (queueFullPayload id ts)]) := by
  simp [process_frame, isFalsy, h1, h2, hmem]

/-! ## C9 -/

/-- C9: every `detect_objects` result has `detection_count` equal to the
length of its `detections` list, `fps = 1/processing_time` when the
processing time is positive and `fps = 0` otherwise. -/
theorem detect_objects_count_fps (class_names : List String)
    (imgW imgH : ℕ) (boxes : List ModelBox) (pt : ℚ) :
    (detect_objects class_names imgW imgH boxes pt).detection_count
      = (detect_objects class_names imgW imgH boxes pt).detections.length
    ∧ (0 < pt →
        (detect_objects class_names imgW imgH boxes pt).fps = 1 / pt)
    ∧ (pt ≤ 0 → (detect_objects class_names imgW imgH boxes pt).fps = 0) := by
  refine ⟨rfl, fun h => ?_, fun h => ?_⟩
  · simp [detect_objects, h]
  · simp [detect_objects, not_lt.mpr h]

/-- Witness for C9 at concrete processing times 2 and 0. -/
theorem detect_objects_count_fps_witness :
    (detect_objects [] 320 240 [] 2).fps = 1 / 2
    ∧ (detect_objects [] 320 240 [] 0).fps = 0 :=
  ⟨(detect_objects_count_fps [] 320 240 [] 2).2.1 (by norm_num),
   (detect_objects_count_fps [] 320 240 [] 0).2.2 le_rfl⟩

/-! ## C3 -/

/-- C3 counterexample: `detect_objects` applies no clamping to the raw
model boxes, so a model output with `x1 > x2` (here pixel box
(5,5)-(2,2) on a 320×240 image) yields a published detection violating
`x2 ≥ x1`.  The claimed invariant fails as an unconditional statement
about `detect_objects`. -/
theorem bbox_invariant_cex :
    ¬ (∀ d ∈ (detect_objects [] 320 240
          [{ x1 := 5, y1 := 5, x2 := 2, y2 := 2, conf := 1, cls := 0 }]
          1).detections,
        d.bbox.x1 ≤ d.bbox.x2 ∧ d.bbox.y1 ≤ d.bbox.y2) := by
  intro h
  have hmem : mkDetection [] 320 240
      { x1 := 5, y1 := 5, x2 := 2, y2 := 2, conf := 1, cls := 0 }
      ∈ (detect_objects [] 320 240
          [{ x1 := 5, y1 := 5, x2 := 2, y2 := 2, conf := 1, cls := 0 }]
          1).detections := by
    simp [detect_objects]
  have h2 := (h _ hmem).1
  norm_num [mkDetection] at h2

/-- C3 amended: when the processed image has positive dimensions and
every raw model box lies within it with `x1 ≤ x2` and `y1 ≤ y2`, every
produced detection has normalized coordinates in [0,1] with
`x2 ≥ x1`, `y2 ≥ y1`; the `width = x2 - x1` and `height = y2 - y1`
identities hold by construction. -/
theorem bbox_invariant_amended (class_names : List String)
    (imgW imgH : ℕ) (boxes : List ModelBox) (pt : ℚ)
    (hW : 0 < imgW) (hH : 0 < imgH)
    (hb : ∀ b ∈ boxes, 0 ≤ b.x1 ∧ b.x1 ≤ b.x2 ∧ b.x2 ≤ (imgW : ℚ)
        ∧ 0 ≤ b.y1 ∧ b.y1 ≤ b.y2 ∧ b.y2 ≤ (imgH : ℚ)) :
    ∀ d ∈ (detect_objects class_names imgW imgH boxes pt).detections,
      0 ≤ d.bbox.x1 ∧ d.bbox.x1 ≤ d.bbox.x2 ∧ d.bbox.x2 ≤ 1 ∧
      0 ≤ d.bbox.y1 ∧ d.bbox.y1 ≤ d.bbox.y2 ∧ d.bbox.y2 ≤ 1 ∧
      d.bbox.width = d.bbox.x2 - d.bbox.x1 ∧
      d.bbox.height = d.bbox.y2 - d.bbox.y1 := by
  intro d hd
  simp only [detect_objects, List.mem_map] at hd
  obtain ⟨b, hbmem, rfl⟩ := hd
  obtain ⟨h1, h2, h3, h4, h5, h6⟩ := hb b hbmem
  have hWq : (0 : ℚ) < imgW := by exact_mod_cast hW
  have hHq : (0 : ℚ) < imgH := by exact_mod_cast hH
  simp only [mkDetection]
  refine ⟨div_nonneg h1 hWq.le, ?_, ?_, div_nonneg h4 hHq.le, ?_, ?_,
    trivial, trivial⟩
  · exact div_le_div_of_nonneg_right h2 hWq.le
  · exact (div_le_one hWq).mpr h3
  · exact div_le_div_of_nonneg_right h5 hHq.le
  · exact (div_le_one hHq).mpr h6

/-- Witness for C3's amended theorem: pixel box (0,0)-(160,120) on a
320×240 processed image. -/
theorem bbox_invariant_amended_witness :
    0 ≤ (mkDetection [] 320 240
        { x1 := 0, y1 := 0, x2 := 160, y2 := 120, conf := 1, cls := 0 }).bbox.x1
    ∧ (mkDetection [] 320 240
        { x1 := 0, y1 := 0, x2 := 160, y2 := 120, conf := 1, cls := 0 }).bbox.x1
      ≤ (mkDetection [] 320 240
        { x1 := 0, y1 := 0, x2 := 160, y2 := 120, conf := 1, cls := 0 }).bbox.x2
    ∧ (mkDetection [] 320 240
        { x1 := 0, y1 := 0, x2 := 160, y2 := 120, conf := 1, cls := 0 }).bbox.x2 ≤ 1
    ∧ 0 ≤ (mkDetection [] 320 240
        { x1 := 0, y1 := 0, x2 := 160, y2 := 120, conf := 1, cls := 0 }).bbox.y1
    ∧ (mkDetection [] 320 240
        { x1 := 0, y1 := 0, x2 := 160, y2 := 120, conf := 1, cls := 0 }).bbox.y1
      ≤ (mkDetection [] 320 240
        { x1 := 0, y1 := 0, x2 := 160, y2 := 120, conf := 1, cls := 0 }).bbox.y2
    ∧ (mkDetection [] 320 240
        { x1 := 0, y1 := 0, x2 := 160, y2 := 120, conf := 1, cls := 0 }).bbox.y2 ≤ 1
    ∧ (mkDetection [] 320 240
        { x1 := 0, y1 := 0, x2 := 160, y2 := 120, conf := 1, cls := 0 }).bbox.width
      = (mkDetection [] 320 240
        { x1 := 0, y1 := 0, x2 := 160, y2 := 120, conf := 1, cls := 0 }).bbox.x2
        - (mkDetection [] 320 240
        { x1 := 0, y1 := 0, x2 := 160, y2 := 120, conf := 1, cls := 0 }).bbox.x1
    ∧ (mkDetection [] 320 240
        { x1 := 0, y1 := 0, x2 := 160, y2 := 120, conf := 1, cls := 0 }).bbox.height
      = (mkDetection [] 320 240
        { x1 := 0, y1 := 0, x2 := 160, y2 := 120, conf := 1, cls := 0 }).bbox.y2
        - (mkDetection [] 320 240
        { x1 := 0, y1 := 0, x2 := 160, y2 := 120, conf := 1, cls := 0 }).bbox.y1 :=
  bbox_invariant_amended [] 320 240
    [{ x1 := 0, y1 := 0, x2 := 160, y2 := 120, conf := 1, cls := 0 }] 1
    (by norm_num) (by norm_num) (by norm_num)
    (mkDetection [] 320 240
      { x1 := 0, y1 := 0, x2 := 160, y2 := 120, conf := 1, cls := 0 })
    (by simp [detect_objects])

/-! ## C1 -/

/-- C1 counterexample: a live session submits a frame whose
decode/inference raises; the worker's `except Exception` arm only logs
(`detection_server.py` lines 93-96), so nothing at all is emitted — the
claimed error-tagged result is never published and the submitting
session gets silence. -/
theorem worker_error_publishes_cex :
    (detection_worker_step true (fun _ => Except.error "decode error") 5
      { sessions := [("s1", { sid := 7, joined_at := 0, frame_count := 1
                              last_detection := none })],
        queue := [{ session_id := "s1", image := "bad", timestamp := 3 }]
      }).2 = [] := rfl

/-- C1 amended: when decoding or inference raises, the failure is caught
(the worker step totally completes, consuming the job) and the loop goes
on to the remaining jobs unchanged — but no result is published for the
failing job; the submitting session receives silence for that frame. -/
theorem worker_error_silent (detect : String → Except String DetResult)
    (now : ℕ) (reg : Registry) (job : Job) (rest : List Job)
    (msg : String) (herr : detect job.image = Except.error msg) :
    detection_worker_step true detect now
        { sessions := reg, queue := job :: rest }
      = ({ sessions := reg, queue := rest }, [])
    ∧ detection_worker_run detect now reg (job :: rest)
      = detection_worker_run detect now reg rest := by
  constructor
  · simp [detection_worker_step, herr]
  · simp [detection_worker_run, detection_worker_step, herr]

/-- Witness for C1's amended theorem at a concrete failing job. -/
theorem worker_error_silent_witness :
    detection_worker_step true (fun _ => Except.error "bad b64") 9
        { sessions := [("s2", { sid := 4, joined_at := 0, frame_count := 0
                                last_detection := none })],
          queue := [{ session_id := "s2", image := "zz", timestamp := 1 }] }
      = ({ sessions := [("s2", { sid := 4, joined_at := 0, frame_count := 0
                                 last_detection := none })], queue := [] },
         [])
    ∧ detection_worker_run (fun _ => Except.error "bad b64") 9
        [("s2", { sid := 4, joined_at := 0, frame_count := 0
                  last_detection := none })]
        [{ session_id := "s2", image := "zz", timestamp := 1 }]
      = detection_worker_run (fun _ => Except.error "bad b64") 9
        [("s2", { sid := 4, joined_at := 0, frame_count := 0
                  last_detection := none })] [] :=
  worker_error_silent (fun _ => Except.error "bad b64") 9
    [("s2", { sid := 4, joined_at := 0, frame_count := 0
              last_detection := none })]
    { session_id := "s2", image := "zz", timestamp := 1 } [] "bad b64" rfl

/-! ## C2 -/

/-- C2 counterexample: with the 10-slot queue full, a valid frame for a
live session with `frame_count = 3` is rejected with the queue-full
reply, yet `frame_count` becomes 4 — the increment at
`detection_server.py` line 173 precedes the `put_nowait`, so a
queue-full rejection does change `frame_count`, contradicting the
claim. -/
theorem frame_count_queue_full_cex :
    (lookupSession
        (process_frame true 7 (some "s1") (some "img") 5
          { sessions := [("s1", { sid := 7, joined_at := 100
                                  frame_count := 3
                                  last_detection := none })],
            queue := List.replicate 10
              { session_id := "s1", image := "x", timestamp := 0 }
          }).1.sessions "s1").map (fun i => i.frame_count) = some 4
    ∧ (process_frame true 7 (some "s1") (some "img") 5
        { sessions := [("s1", { sid := 7, joined_at := 100
                                frame_count := 3
                                last_detection := none })],
          queue := List.replicate 10
            { session_id := "s1", image := "x", timestamp := 0 }
        }).2
      = [Emit.detectionResults (Room.conn 7) (queueFullPayload "s1" 5)] := by
  decide

/-- C2 amended: `frame_count` is incremented exactly once per frame that
passes validation and the session-existence check — including frames
subsequently dropped because the dispatch queue was full; it counts
received valid frames, not enqueued ones. -/
theorem frame_count_per_valid_frame (sid : ℕ) (id img : String) (ts : ℕ)
    (st : ServerState) (info : SessionInfo)
    (hid : id ≠ "") (himg : img ≠ "")
    (hmem : lookupSession st.sessions id = some info) :
    lookupSession
        (process_frame true sid (some id) (some img) ts st).1.sessions id
      = some { info with frame_count := info.frame_count + 1 } := by
  have h1 : (id == "") = false := by simpa using hid
  have h2 : (img == "") = false := by simpa using himg
  rw [process_frame_accepted_eq sid id img ts st info h1 h2 hmem]
  split
  · simp [lookup_bumpFrameCount_self, hmem]
  · simp [lookup_bumpFrameCount_self, hmem]

/-- Witness for C2's amended theorem: a frame accepted while the queue
has room bumps the counter from 3 to 4. -/
theorem frame_count_per_valid_frame_witness :
    lookupSession
        (process_frame true 7 (some "s1") (some "img") 5
          { sessions := [("s1", { sid := 7, joined_at := 100
                                  frame_count := 3
                                  last_detection := none })],
            queue := [] }).1.sessions "s1"
      = some { sid := 7, joined_at := 100, frame_count := 4
               last_detection := none } :=
  frame_count_per_valid_frame 7 "s1" "img" 5
    { sessions := [("s1", { sid := 7, joined_at := 100, frame_count := 3
                            last_detection := none })], queue := [] }
    { sid := 7, joined_at := 100, frame_count := 3, last_detection := none }
    (by decide) (by decide) rfl

/-! ## C4 -/

/-- C4: a valid frame for a live session hitting a full queue is never
enqueued and yields an immediate direct `detection_results` reply to the
calling transport carrying the error string, empty detections and zero
timings; the queue is unchanged and the session's `last_detection` is
untouched. -/
theorem queue_full_direct_reply (sid : ℕ) (id img : String) (ts : ℕ)
    (st : ServerState) (info : SessionInfo)
    (hid : id ≠ "") (himg : img ≠ "")
    (hmem : lookupSession st.sessions id = some info)
    (hfull : QUEUE_MAXSIZE ≤ st.queue.length) :
    (process_frame true sid (some id) (some img) ts st).1.queue = st.queue
    ∧ (process_frame true sid (some id) (some img) ts st).2
      = [Emit.detectionResults (Room.conn sid) (queueFullPayload id ts)]
    ∧ (lookupSession
        (process_frame true sid (some id) (some img) ts st).1.sessions
        id).map (fun i => i.last_detection)
      = some info.last_detection := by
  have h1 : (id == "") = false := by simpa using hid
  have h2 : (img == "") = false := by simpa using himg
  rw [process_frame_accepted_eq sid id img ts st info h1 h2 hmem,
    if_neg (by omega)]
  refine ⟨rfl, rfl, ?_⟩
  simp [lookup_bumpFrameCount_self, hmem]

/-- Witness for C4 at a concrete full-queue state. -/
theorem queue_full_direct_reply_witness :
    (process_frame true 7 (some "s1") (some "img") 5
        { sessions := [("s1", { sid := 7, joined_at := 100
                                frame_count := 3
                                last_detection := none })],
          queue := List.replicate 10
            { session_id := "s1", image := "x", timestamp := 0 }
        }).1.queue
      = List.replicate 10 { session_id := "s1", image := "x"
                            timestamp := 0 }
    ∧ (process_frame true 7 (some "s1") (some "img") 5
        { sessions := [("s1", { sid := 7, joined_at := 100
                                frame_count := 3
                                last_detection := none })],
          queue := List.replicate 10
            { session_id := "s1", image := "x", timestamp := 0 }
        }).2
      = [Emit.detectionResults (Room.conn 7) (queueFullPayload "s1" 5)]
    ∧ (lookupSession
        (process_frame true 7 (some "s1") (some "img") 5
          { sessions := [("s1", { sid := 7, joined_at := 100
                                  frame_count := 3
                                  last_detection := none })],
            queue := List.replicate 10
              { session_id := "s1", image := "x", timestamp := 0 }
          }).1.sessions "s1").map (fun i => i.last_detection)
      = some none :=
  queue_full_direct_reply 7 "s1" "img" 5
    { sessions := [("s1", { sid := 7, joined_at := 100, frame_count := 3
                            last_detection := none })],
      queue := List.replicate 10
        { session_id := "s1", image := "x", timestamp := 0 } }
    { sid := 7, joined_at := 100, frame_count := 3, last_detection := none }
    (by decide) (by decide) rfl (by decide)

/-! ## C6 -/

/-- C6: when a job's session is no longer registered at delivery time
(removed after the job was enqueued, e.g. by `disconnect`), the worker's
publication step completes without error and emits nothing: the result
is silently dropped. -/
theorem publisher_drops_vanished_session
    (detect : String → Except String DetResult) (now : ℕ)
    (reg : Registry) (job : Job) (rest : List Job) (res : DetResult)
    (hok : detect job.image = Except.ok res)
    (hgone : lookupSession reg job.session_id = none) :
    detection_worker_step true detect now
        { sessions := reg, queue := job :: rest }
      = ({ sessions := reg, queue := rest }, []) := by
  simp [detection_worker_step, hok, hgone]

/-- Witness for C6: session `s1` joins, its transport disconnects while
its job is queued, the worker then processes the job and emits
nothing. -/
theorem publisher_drops_vanished_session_witness :
    detection_worker_step true
        (fun _ => Except.ok { detections := [], processing_time := 1
                              fps := 1, image_size := { width := 320
                                                        height := 240 }
                              detection_count := 0 }) 9
        { sessions :=
            removeBySid [("s1", { sid := 7, joined_at := 0
                                  frame_count := 2
                                  last_detection := none })] 7,
          queue := [{ session_id := "s1", image := "img", timestamp := 4 }] }
      = ({ sessions :=
            removeBySid [("s1", { sid := 7, joined_at := 0
                                  frame_count := 2
                                  last_detection := none })] 7,
           queue := [] }, []) :=
  publisher_drops_vanished_session
    (fun _ => Except.ok { detections := [], processing_time := 1, fps := 1
                          image_size := { width := 320, height := 240 }
                          detection_count := 0 }) 9
    (removeBySid [("s1", { sid := 7, joined_at := 0, frame_count := 2
                           last_detection := none })] 7)
    { session_id := "s1", image := "img", timestamp := 4 } []
    { detections := [], processing_time := 1, fps := 1
      image_size := { width := 320, height := 240 }, detection_count := 0 }
    rfl rfl

/-! ## C7 -/

/-- C7: `join_detection_session` with a `session_id` already registered
overwrites the prior entry: afterwards the session's record is exactly
`{sid := new transport, joined_at := now, frame_count := 0,
last_detection := none}`, and the registry still holds exactly one entry
for that id (at most one live transport per session id). -/
theorem join_overwrites (sid : ℕ) (id : String) (now : ℕ)
    (st : ServerState) (old : SessionInfo)
    (hid : id ≠ "")
    (hpresent : lookupSession st.sessions id = some old)
    (hcount : st.sessions.countP (fun p => p.1 == id) ≤ 1) :
    lookupSession
        (join_detection_session sid (some id) now st).1.sessions id
      = some { sid := sid, joined_at := now, frame_count := 0
               last_detection := none }
    ∧ ((join_detection_session sid (some id) now st).1.sessions.countP
        (fun p => p.1 == id)) = 1 := by
  have h1 : (id == "") = false := by simpa using hid
  simp only [join_detection_session, isFalsy, h1, Bool.false_eq_true,
    if_false, Option.getD_some]
  exact ⟨lookup_setSession_self st.sessions id _,
    countP_setSession st.sessions id _ hcount⟩

/-- Witness for C7: re-joining `s1` (old counter 9, old transport 3)
from transport 8 resets its record. -/
theorem join_overwrites_witness :
    lookupSession
        (join_detection_session 8 (some "s1") 200
          { sessions := [("s1", { sid := 3, joined_at := 50
                                  frame_count := 9
                                  last_detection := none })],
            queue := [] }).1.sessions "s1"
      = some { sid := 8, joined_at := 200, frame_count := 0
               last_detection := none }
    ∧ ((join_detection_session 8 (some "s1") 200
          { sessions := [("s1", { sid := 3, joined_at := 50
                                  frame_count := 9
                                  last_detection := none })],
            queue := [] }).1.sessions.countP
        (fun p => p.1 == "s1")) = 1 :=
  join_overwrites 8 "s1" 200
    { sessions := [("s1", { sid := 3, joined_at := 50, frame_count := 9
                            last_detection := none })], queue := [] }
    { sid := 3, joined_at := 50, frame_count := 9, last_detection := none }
    (by decide) rfl (by decide)

/-! ## C8 -/

/-- C8: a `process_frame` event with a missing (or empty, hence falsy)
`session_id` or `image` field is rejected at the gateway with a single
validation error to the calling transport and leaves the whole server
state — registry, every `frame_count`, and the queue — unchanged. -/
theorem process_frame_validation_no_effect (sid : ℕ)
    (session_id image : Option String) (timestamp : ℕ)
    (st : ServerState)
    (hbad : (isFalsy session_id || isFalsy image) = true) :
    process_frame true sid session_id image timestamp st
      = (st, [Emit.errorMsg sid "Session ID and image data required"]) := by
  simp [process_frame, hbad]

/-- Witness for C8: a frame with no `image` field. -/
theorem process_frame_validation_no_effect_witness :
    process_frame true 7 (some "s1") none 5
        { sessions := [("s1", { sid := 7, joined_at := 100
                                frame_count := 3
                                last_detection := none })], queue := [] }
      = ({ sessions := [("s1", { sid := 7, joined_at := 100
                                 frame_count := 3
                                 last_detection := none })], queue := [] },
         [Emit.errorMsg 7 "Session ID and image data required"]) :=
  process_frame_validation_no_effect 7 (some "s1") none 5
    { sessions := [("s1", { sid := 7, joined_at := 100, frame_count := 3
                            last_detection := none })], queue := [] }
    (by decide)

/-! ## Membership lemmas for the registry operations -/

lemma mem_setSession {reg : Registry} {id : String} {v : SessionInfo}
    {p : String × SessionInfo} (hp : p ∈ setSession reg id v) :
    p ∈ reg ∨ p = (id, v) := by
  induction reg with
  | nil =>
      simp [setSession] at hp
      exact Or.inr hp
  | cons hd tl ih =>
      obtain ⟨k, w⟩ := hd
      by_cases hk : k = id
      · subst hk
        simp [setSession] at hp
        rcases hp with h' | h'
        · exact Or.inr (by simp [h'])
        · exact Or.inl (List.mem_cons_of_mem _ h')
      · simp [setSession, hk] at hp
        rcases hp with h' | h'
        · exact Or.inl (by simp [h'])
        · rcases ih h' with h'' | h''
          · exact Or.inl (List.mem_cons_of_mem _ h'')
          · exact Or.inr h''

lemma mem_bumpFrameCount {reg : Registry} {id : String}
    {p : String × SessionInfo} (hp : p ∈ bumpFrameCount reg id) :
    ∃ q ∈ reg, p.2.last_detection = q.2.last_detection := by
  induction reg with
  | nil => simp [bumpFrameCount] at hp
  | cons hd tl ih =>
      obtain ⟨k, w⟩ := hd
      by_cases hk : k = id
      · subst hk
        simp [bumpFrameCount] at hp
        rcases hp with h' | h'
        · exact ⟨(k, w), by simp, by simp [h']⟩
        · exact ⟨p, List.mem_cons_of_mem _ h', rfl⟩
      · simp [bumpFrameCount, hk] at hp
        rcases hp with h' | h'
        · exact ⟨(k, w), by simp, by simp [h']⟩
        · obtain ⟨q, hq, he⟩ := ih h'
          exact ⟨q, List.mem_cons_of_mem _ hq, he⟩

lemma mem_removeBySid {reg : Registry} {sid : ℕ}
    {p : String × SessionInfo} (hp : p ∈ removeBySid reg sid) :
    p ∈ reg := by
  induction reg with
  | nil => simp [removeBySid] at hp
  | cons hd tl ih =>
      obtain ⟨k, w⟩ := hd
      by_cases hk : w.sid = sid
      · simp [removeBySid, hk] at hp
        exact List.mem_cons_of_mem _ hp
      · simp [removeBySid, hk] at hp
        rcases hp with h' | h'
        · exact by simp [h']
        · exact List.mem_cons_of_mem _ (ih h')

lemma mem_of_lookup {reg : Registry} {id : String} {info : SessionInfo}
    (h : lookupSession reg id = some info) : (id, info) ∈ reg := by
  induction reg with
  | nil => simp [lookupSession] at h
  | cons hd tl ih =>
      obtain ⟨k, w⟩ := hd
      by_cases hk : k = id
      · subst hk
        simp [lookupSession] at h
        subst h
        exact List.mem_cons_self _ _
      · simp [lookupSession, hk] at h
        exact List.mem_cons_of_mem _ (ih h)

lemma step_pres (st : ServerState) (e : Event)
    (h : ∀ p ∈ st.sessions, p.2.last_detection = none) :
    (∀ p ∈ (stepEvent st e).1.sessions, p.2.last_detection = none)
    ∧ (∀ room payload,
        Emit.sessionStats room payload ∈ (stepEvent st e).2 →
          payload.last_detection = none) := by
  cases e with
  | join sid sidOpt now =>
      simp only [stepEvent, join_detection_session]
      split
      · exact ⟨h, by simp⟩
      · refine ⟨?_, by simp⟩
        intro p hp
        rcases mem_setSession hp with h' | h'
        · exact h p h'
        · simp [h']
  | frame ready sid sidOpt imgOpt ts =>
      simp only [stepEvent, process_frame]
      split
      · exact ⟨h, by simp⟩
      split
      · exact ⟨h, by simp⟩
      split
      · exact ⟨h, by simp⟩
      split
      · refine ⟨?_, by simp⟩
        intro p hp
        obtain ⟨q, hq, he⟩ := mem_bumpFrameCount hp
        rw [he]
        exact h q hq
      · refine ⟨?_, by simp⟩
        intro p hp
        obtain ⟨q, hq, he⟩ := mem_bumpFrameCount hp
        rw [he]
        exact h q hq
  | workerStep ready detect now =>
      simp only [stepEvent, detection_worker_step]
      split
      · exact ⟨h, by simp⟩
      split
      · exact ⟨h, by simp⟩
      split
      · exact ⟨h, by simp⟩
      split
      · exact ⟨h, by simp⟩
      · exact ⟨h, by simp⟩
  | disconnectEv sid =>
      simp only [stepEvent, disconnect]
      exact ⟨fun p hp => h p (mem_removeBySid hp), by simp⟩
  | stats sid sidOpt now =>
      simp only [stepEvent, get_session_stats]
      split
      · exact ⟨h, by simp⟩
      · rename_i info heq
        refine ⟨h, ?_⟩
        intro room payload hp
        simp at hp
        obtain ⟨h1, h2⟩ := hp
        subst h2
        exact h _ (mem_of_lookup heq)

lemma runEvents_pres (evs : List Event) (st : ServerState)
    (h : ∀ p ∈ st.sessions, p.2.last_detection = none) :
    (∀ p ∈ (runEvents st evs).1.sessions, p.2.last_detection = none)
    ∧ (∀ room payload,
        Emit.sessionStats room payload ∈ (runEvents st evs).2 →
          payload.last_detection = none) := by
  induction evs generalizing st with
  | nil => exact ⟨h, by simp [runEvents]⟩
  | cons e rest ih =>
      obtain ⟨h1, h2⟩ := step_pres st e h
      obtain ⟨h3, h4⟩ := ih (stepEvent st e).1 h1
      refine ⟨h3, ?_⟩
      intro room payload hp
      simp only [runEvents, List.mem_append] at hp
      rcases hp with hp | hp
      · exact h2 room payload hp
      · exact h4 room payload hp

/-! ## C10 -/

/-- C10: from process start, over every event trace (joins, frames,
worker steps, disconnects, stats requests), every registered session's
`last_detection` is `none` — `join_detection_session` initializes it to
`None` and no handler ever writes it — and consequently every
`session_stats` reply ever emitted reports `last_detection = None`. -/
theorem last_detection_always_none (evs : List Event) :
    (∀ p ∈ (runEvents initState evs).1.sessions,
        p.2.last_detection = none)
    ∧ (∀ room payload,
        Emit.sessionStats room payload ∈ (runEvents initState evs).2 →
          payload.last_detection = none) :=
  runEvents_pres evs initState (by simp [initState])

/-- Witness for C10 on the concrete trace join(s1) then stats(s1): the
emitted stats payload carries `last_detection = none`. -/
theorem last_detection_always_none_witness :
    ({ session_id := "s1", uptime := 5, frame_count := 0
       last_detection := none, queue_size := 0
       active_sessions := 1 } : StatsPayload).last_detection = none :=
  (last_detection_always_none
      [Event.join 7 (some "s1") 100, Event.stats 7 (some "s1") 105]).2
    7
    { session_id := "s1", uptime := 5, frame_count := 0
      last_detection := none, queue_size := 0, active_sessions := 1 }
    (by decide)

/-! ## C5 -/

/-- C5: the sequential worker drains the FIFO queue in order, so the
`detection_results` published to one session's room are exactly the
per-session subsequence of the queued jobs, mapped through the worker
(jobs whose detection fails or whose session vanished produce nothing);
in particular results for a single session are delivered in the order
that session's frames were enqueued. -/
theorem worker_fifo_per_session
    (detect : String → Except String DetResult) (now : ℕ)
    (reg : Registry) (jobs : List Job) (s : String) :
    emitsForSession s (detection_worker_run detect now reg jobs)
      = (jobs.filter (fun j => j.session_id == s)).filterMap
          (resultFor detect now reg) := by
  induction jobs with
  | nil => simp [detection_worker_run, emitsForSession]
  | cons job rest ih =>
      simp only [detection_worker_run, emitsForSession,
        List.filterMap_append, List.filter_cons]
      simp only [emitsForSession] at ih
      rw [ih]
      by_cases hs : job.session_id = s
      · subst hs
        simp only [beq_self_eq_true, if_pos, List.filterMap_cons]
        cases hdet : detect job.image with
        | error msg =>
            have hr : resultFor detect now reg job = none := by
              simp [resultFor, hdet]
            simp [detection_worker_step, hdet, hr]
        | ok res =>
            by_cases hmem : (lookupSession reg job.session_id).isSome
            · have hr : resultFor detect now reg job
                  = some (workerPayload res job.session_id job.timestamp now) := by
                simp [resultFor, hdet, hmem]
              simp [detection_worker_step, hdet, hmem, hr]
            · have hr : resultFor detect now reg job = none := by
                simp [resultFor, hdet, hmem]
              simp [detection_worker_step, hdet, hmem, hr]
      · have hb : (job.session_id == s) = false := by simpa using hs
        simp only [hb, Bool.false_eq_true, if_false]
        cases hdet : detect job.image with
        | error msg => simp [detection_worker_step, hdet]
        | ok res =>
            by_cases hmem : (lookupSession reg job.session_id).isSome
            · simp [detection_worker_step, hdet, hmem, hs]
            · simp [detection_worker_step, hdet, hmem]

end DetectionService
